import Mathlib

/-!
Verification of the watchtower-plugin client core and the teos configuration
checker of rust-teos, as a shallow embedding in Lean 4.

Identity types (secp256k1 public keys, 16-byte locators) are modelled as Nat:
the code only ever compares them for equality.  The HashMap of towers is
modelled as an association list with unique keys; the SQLite store is modelled
as a log of the logical operations issued against it, which is enough to state
that a call does or does not persist anything.
-/

namespace RustTeos

/-- Tower status. Modelled from the spec (section 4.4): the enum lives in
watchtower-plugin/src/lib.rs, which is not part of the embedded sources; the
spec lists five states plus terminal Abandoned. -/
inductive TowerStatus where
  | Reachable
  | TemporaryUnreachable
  | Unreachable
  | SubscriptionError
  | Misbehaving
  | Abandoned
deriving DecidableEq, Repr

/-- Modelled from the spec: status predicate used by the dispatch loop.
A tower is reachable exactly when its status is Reachable (section 4.4). -/
def TowerStatus.is_reachable : TowerStatus → Bool
  | .Reachable => true
  | _ => false

/-- Modelled from the spec: status predicate used by the dispatch loop to skip
misbehaving towers. True exactly on the Misbehaving state (section 4.4). -/
def TowerStatus.is_misbehaving : TowerStatus → Bool
  | .Misbehaving => true
  | _ => false

/-- Modelled from the spec: predicate used by the dispatch loop's logging
branch. True exactly on the SubscriptionError state (section 4.4). -/
def TowerStatus.is_subscription_error : TowerStatus → Bool
  | .SubscriptionError => true
  | _ => false

/-- Modelled from the spec: predicate used by WTClient::new to decide which
loaded towers are re-enqueued to the retrier. Per the restart rule
(section 3, invariant 5) towers loaded as temporarily-unreachable are
re-enqueued, so the unreachable category covers both unreachable states. -/
def TowerStatus.is_unreachable : TowerStatus → Bool
  | .TemporaryUnreachable => true
  | .Unreachable => true
  | _ => false

/-- An appointment: 16-byte locator (as Nat), encrypted blob, to_self_delay. -/
structure Appointment where
  locator : Nat
  encrypted_blob : List Nat
  to_self_delay : Nat
deriving DecidableEq, Repr

/-- A registration receipt as used by add_update_tower (signature omitted:
the embedded code only reads available_slots and subscription_expiry). -/
structure RegistrationReceipt where
  user_id : Nat
  available_slots : Nat
  subscription_start : Nat
  subscription_expiry : Nat
deriving DecidableEq, Repr

/-- In-memory tower summary (TowerSummary in lib.rs, shape per spec section 3). -/
structure TowerSummary where
  net_addr : String
  available_slots : Nat
  subscription_expiry : Nat
  status : TowerStatus
  pending_appointments : List Nat
  invalid_appointments : List Nat
deriving DecidableEq, Repr

/-- Modelled from the spec: TowerSummary::new (lib.rs, not under the embedded
sources). A tower enters the system on successful registration in state
Reachable with empty appointment sets (spec section 3, Lifecycle). -/
def TowerSummary.new (net_addr : String) (available_slots subscription_expiry : Nat) :
    TowerSummary :=
  { net_addr := net_addr
    available_slots := available_slots
    subscription_expiry := subscription_expiry
    status := .Reachable
    pending_appointments := []
    invalid_appointments := [] }

/-- One logical operation issued against the persistent store (DBM). The
embedding records the calls the client code makes; their effect on disk is
out of scope, the log is enough to state persistence and frame conditions. -/
inductive DBOp where
  | store_tower_record (tower_id : Nat) (net_addr : String)
      (available_slots subscription_expiry : Nat)
  | store_appointment_receipt (tower_id locator available_slots : Nat)
  | store_pending_appointment (tower_id locator : Nat)
  | delete_pending_appointment (tower_id locator : Nat)
  | store_invalid_appointment (tower_id locator : Nat)
  | store_misbehaving_proof (tower_id : Nat)
  | remove_tower_records (tower_id : Nat)
deriving DecidableEq, Repr

/-- Association-list lookup keyed by Nat, modelling HashMap::get. -/
def alist_lookup {α : Type} : Nat → List (Nat × α) → Option α
  | _, [] => none
  | id, p :: rest => if p.1 = id then some p.2 else alist_lookup id rest

/-- Pointwise update of one key, modelling HashMap::get_mut mutation. -/
def alist_update {α : Type} (l : List (Nat × α)) (id : Nat) (f : α → α) :
    List (Nat × α) :=
  l.map fun p => if p.1 = id then (p.1, f p.2) else p

/-- Insert-or-replace, modelling HashMap::insert. -/
def alist_insert {α : Type} (l : List (Nat × α)) (id : Nat) (a : α) :
    List (Nat × α) :=
  if (alist_lookup id l).isSome then alist_update l id (fun _ => a) else l ++ [(id, a)]

/-- The client state: the in-memory tower registry, the log of store
operations issued so far, and the ids sent on the unreachable_towers
channel so far (WTClient in wt_client.rs). -/
structure WTClient where
  towers : List (Nat × TowerSummary)
  db_log : List DBOp
  sent : List Nat
deriving DecidableEq, Repr

/-- WTClient::set_tower_status: sets the status if the tower is known,
otherwise only logs an error (no state change, no error returned). -/
def WTClient.set_tower_status (c : WTClient) (tower_id : Nat) (status : TowerStatus) :
    WTClient :=
  match alist_lookup tower_id c.towers with
  | some _ =>
      { c with towers := alist_update c.towers tower_id fun t => { t with status := status } }
  | none => c

/-- WTClient::add_appointment_receipt: on a known tower, updates the slot
count from the tower's reply and persists the receipt; unknown towers are
ignored. -/
def WTClient.add_appointment_receipt (c : WTClient) (tower_id locator available_slots : Nat) :
    WTClient :=
  match alist_lookup tower_id c.towers with
  | some _ =>
      { c with
        towers := alist_update c.towers tower_id fun t =>
          { t with available_slots := available_slots }
        db_log := c.db_log ++ [.store_appointment_receipt tower_id locator available_slots] }
  | none => c

/-- WTClient::add_pending_appointment: on a known tower, adds the locator to
the in-memory pending set and persists the appointment; unknown towers are
ignored. -/
def WTClient.add_pending_appointment (c : WTClient) (tower_id : Nat) (a : Appointment) :
    WTClient :=
  match alist_lookup tower_id c.towers with
  | some _ =>
      { c with
        towers := alist_update c.towers tower_id fun t =>
          { t with pending_appointments := t.pending_appointments.insert a.locator }
        db_log := c.db_log ++ [.store_pending_appointment tower_id a.locator] }
  | none => c

/-- WTClient::remove_pending_appointment: on a known tower, removes the
locator from the pending set and deletes it from the store. -/
def WTClient.remove_pending_appointment (c : WTClient) (tower_id locator : Nat) :
    WTClient :=
  match alist_lookup tower_id c.towers with
  | some _ =>
      { c with
        towers := alist_update c.towers tower_id fun t =>
          { t with pending_appointments := t.pending_appointments.erase locator }
        db_log := c.db_log ++ [.delete_pending_appointment tower_id locator] }
  | none => c

/-- WTClient::add_invalid_appointment: on a known tower, adds the locator to
the invalid set and persists the appointment as invalid. -/
def WTClient.add_invalid_appointment (c : WTClient) (tower_id : Nat) (a : Appointment) :
    WTClient :=
  match alist_lookup tower_id c.towers with
  | some _ =>
      { c with
        towers := alist_update c.towers tower_id fun t =>
          { t with invalid_appointments := t.invalid_appointments.insert a.locator }
        db_log := c.db_log ++ [.store_invalid_appointment tower_id a.locator] }
  | none => c

/-- WTClient::flag_misbehaving_tower: on a known tower, persists the
misbehavior proof and sets the in-memory status to Misbehaving. -/
def WTClient.flag_misbehaving_tower (c : WTClient) (tower_id : Nat) : WTClient :=
  match alist_lookup tower_id c.towers with
  | some _ =>
      { c with
        towers := alist_update c.towers tower_id fun t => { t with status := .Misbehaving }
        db_log := c.db_log ++ [.store_misbehaving_proof tower_id] }
  | none => c

/-- WTClient::add_update_tower as found in wt_client.rs: unconditionally
persists the tower record and replaces the in-memory summary with a fresh
one built from the receipt. Note: it performs no comparison with any
previously stored expiry or slot count and it cannot fail. -/
def WTClient.add_update_tower (c : WTClient) (tower_id : Nat) (tower_net_addr : String)
    (receipt : RegistrationReceipt) : WTClient :=
  { c with
    db_log := c.db_log ++
      [.store_tower_record tower_id tower_net_addr receipt.available_slots
        receipt.subscription_expiry]
    towers := alist_insert c.towers tower_id
      (TowerSummary.new tower_net_addr receipt.available_slots receipt.subscription_expiry) }

/-- Modelled from the spec: WTClient::remove_tower (called by abandon_tower in
main.rs but absent from the embedded wt_client.rs). Abandonment removes all of
the tower's records (spec section 3, Lifecycle). -/
def WTClient.remove_tower (c : WTClient) (tower_id : Nat) : WTClient :=
  { c with
    towers := c.towers.filter fun p => p.1 ≠ tower_id
    db_log := c.db_log ++ [.remove_tower_records tower_id] }

/-- Variants of net::http::RequestError (ConnectionError, DeserializeError,
Unexpected); message payloads are irrelevant to the claims. -/
inductive RequestErr where
  | connection
  | deserialize
  | unexpected
deriving DecidableEq, Repr

/-- RequestError::is_connection: true exactly on the ConnectionError variant. -/
def RequestErr.is_connection : RequestErr → Bool
  | .connection => true
  | _ => false

/-- Modelled from the spec: the numeric error code
INVALID_SIGNATURE_OR_SUBSCRIPTION_ERROR from teos_common::errors (file not
under the embedded sources). Its concrete value is immaterial; only equality
with itself and with other codes matters. -/
def INVALID_SIGNATURE_OR_SUBSCRIPTION_ERROR : Nat := 32

/-- Outcome of the net::http::add_appointment call, as matched by
on_commitment_revocation: success with the slot count from the tower's reply,
a transport-level request error, an API error with its error code, or a
receipt whose signature does not recover to the tower id. -/
inductive AddAppointmentOutcome where
  | ok (available_slots : Nat)
  | request_error (e : RequestErr)
  | api_error (error_code : Nat)
  | signature_error
deriving DecidableEq, Repr

/-- Whether the dispatch loop performs a network call for a tower of the given
snapshot status: add_appointment is awaited only inside the is_reachable
branch of on_commitment_revocation. -/
def makes_network_call (status : TowerStatus) : Bool :=
  status.is_reachable

/-- One iteration of the dispatch loop of on_commitment_revocation for one
tower, given its snapshot status and the classified outcome of the (possible)
add_appointment call. Mirrors main.rs lines 360-441. -/
def process_tower (c : WTClient) (tower_id : Nat) (status : TowerStatus)
    (appointment : Appointment) (outcome : AddAppointmentOutcome) : WTClient :=
  if status.is_reachable then
    match outcome with
    | .ok slots => c.add_appointment_receipt tower_id appointment.locator slots
    | .request_error e =>
        if e.is_connection then
          let c1 := (c.set_tower_status tower_id .TemporaryUnreachable).add_pending_appointment
            tower_id appointment
          { c1 with sent := c1.sent ++ [tower_id] }
        else c
    | .api_error code =>
        if code = INVALID_SIGNATURE_OR_SUBSCRIPTION_ERROR then
          let c1 := (c.set_tower_status tower_id .SubscriptionError).add_pending_appointment
            tower_id appointment
          { c1 with sent := c1.sent ++ [tower_id] }
        else c.add_invalid_appointment tower_id appointment
    | .signature_error => c.flag_misbehaving_tower tower_id
  else if status.is_misbehaving then c
  else c.add_pending_appointment tower_id appointment

/-- The tower snapshot taken by on_commitment_revocation before the loop:
id, net address and status of every registered tower. -/
def tower_snapshot (c : WTClient) : List (Nat × String × TowerStatus) :=
  c.towers.map fun p => (p.1, p.2.net_addr, p.2.status)

/-- The dispatch loop of on_commitment_revocation over a snapshot. -/
def dispatch_towers (c : WTClient) (snapshot : List (Nat × String × TowerStatus))
    (appointment : Appointment) (outcome : Nat → AddAppointmentOutcome) : WTClient :=
  snapshot.foldl (fun acc p => process_tower acc p.1 p.2.2 appointment (outcome p.1)) c

/-- A minimal JSON value universe, enough to distinguish the hook reply the
code builds from the object the spec requires. -/
inductive Json where
  | str (s : String)
  | obj (fields : List (String × Json))

/-- The value on_commitment_revocation returns to the host: the code wraps the
raw text of a Rust string literal in json!, producing a JSON string (with a
leading space and an unquoted continue inside), not a JSON object. -/
def hook_reply : Json :=
  .str " \x7b\"result\": continue\x7d"

/-- on_commitment_revocation after a successful decode of the payload: runs the
dispatch loop over the snapshot of the registry and acknowledges the host.
The Except layer records that this path cannot fail. -/
def on_commitment_revocation (c : WTClient) (appointment : Appointment)
    (outcome : Nat → AddAppointmentOutcome) : Except String (WTClient × Json) :=
  .ok (dispatch_towers c (tower_snapshot c) appointment outcome, hook_reply)

/-- Result of the retry_tower command (main.rs lines 269-292). -/
inductive RetryResult where
  | retrying
  | already_being_retried
  | must_be_unreachable
  | unknown_tower
deriving DecidableEq, Repr

/-- Whether a retry_tower result is the success reply. -/
def RetryResult.is_ok : RetryResult → Bool
  | .retrying => true
  | _ => false

/-- retry_tower: errors on an unknown tower, errors distinctly when the tower
is already TemporaryUnreachable, errors when the status is not Unreachable,
and otherwise sends the tower id on the unreachable_towers channel. -/
def retry_tower (c : WTClient) (tower_id : Nat) : WTClient × RetryResult :=
  match alist_lookup tower_id c.towers with
  | some tower =>
      if tower.status = .TemporaryUnreachable then (c, .already_being_retried)
      else if tower.status ≠ .Unreachable then (c, .must_be_unreachable)
      else ({ c with sent := c.sent ++ [tower_id] }, .retrying)
  | none => (c, .unknown_tower)

/-- Result of the abandon_tower command (main.rs lines 295-315). -/
inductive AbandonResult where
  | flagged
  | removed
  | unknown
deriving DecidableEq, Repr

/-- Whether an abandon_tower result is surfaced as an error to the operator.
The flagged reply is worded and returned as an error even though the deferred
abandonment is in place. -/
def AbandonResult.is_err : AbandonResult → Bool
  | .removed => false
  | _ => true

/-- abandon_tower: on a known TemporaryUnreachable tower only flags it as
Abandoned (deferred abandonment) and replies with an error-worded result; on
any other known tower removes all records; errors on an unknown tower. -/
def abandon_tower (c : WTClient) (tower_id : Nat) : WTClient × AbandonResult :=
  match alist_lookup tower_id c.towers with
  | some tower =>
      if tower.status = .TemporaryUnreachable then
        ({ c with towers := alist_update c.towers tower_id fun t =>
            { t with status := .Abandoned } }, .flagged)
      else (c.remove_tower tower_id, .removed)
  | none => (c, .unknown)

/-- A tower record as persisted in the store, as far as startup reads it. -/
structure StoredTower where
  net_addr : String
  available_slots : Nat
  subscription_expiry : Nat
  pending : List Nat
  invalid : List Nat
deriving DecidableEq, Repr

/-- Modelled from the spec: the in-memory summary DBM::load_towers builds for
one persisted tower (dbm.rs not under the embedded sources). Every tower is
loaded as Reachable except those with non-empty pending appointments, which
are loaded as TemporaryUnreachable (spec section 3, invariant 5). -/
def load_summary (st : StoredTower) : TowerSummary :=
  { net_addr := st.net_addr
    available_slots := st.available_slots
    subscription_expiry := st.subscription_expiry
    status := if st.pending ≠ [] then .TemporaryUnreachable else .Reachable
    pending_appointments := st.pending
    invalid_appointments := st.invalid }

/-- Modelled from the spec: DBM::load_towers over the whole store. -/
def load_towers (store : List (Nat × StoredTower)) : List (Nat × TowerSummary) :=
  store.map fun p => (p.1, load_summary p.2)

/-- WTClient::new: loads the towers from the store and sends every tower whose
loaded status is in the unreachable category on the unreachable_towers
channel (wt_client.rs lines 34-74; key handling is irrelevant to the claims). -/
def wt_client_new (store : List (Nat × StoredTower)) : WTClient :=
  let towers := load_towers store
  { towers := towers
    db_log := []
    sent := ((towers.filter fun p => p.2.status.is_unreachable).map fun p => p.1) }

/-- Where a configuration value came from (config.rs ParamSource). -/
inductive ParamSource where
  | ConfigFile
  | CommandLine
  | Default
deriving DecidableEq, Repr

/-- A configuration parameter with its provenance (config.rs ConfigParam). -/
structure ConfigParam (α : Type) where
  inner : α
  source : ParamSource
  sensitive : Bool
deriving DecidableEq, Repr

/-- ConfigParam::from_default. -/
def ConfigParam.from_default {α : Type} (a : α) : ConfigParam α :=
  { inner := a, source := .Default, sensitive := false }

/-- ConfigParam::from_cmd. -/
def ConfigParam.from_cmd {α : Type} (a : α) : ConfigParam α :=
  { inner := a, source := .CommandLine, sensitive := false }

/-- ConfigParam::set_inner. -/
def ConfigParam.set_inner {α : Type} (p : ConfigParam α) (a : α) : ConfigParam α :=
  { p with inner := a }

/-- ConfigParam::is_default: whether the value is still the built-in default. -/
def ConfigParam.is_default {α : Type} (p : ConfigParam α) : Bool :=
  match p.source with
  | .Default => true
  | _ => false

/-- The tower configuration (config.rs Config), every field kept. -/
structure Config where
  api_bind : ConfigParam String
  api_port : ConfigParam Nat
  rpc_bind : ConfigParam String
  rpc_port : ConfigParam Nat
  btc_network : ConfigParam String
  btc_rpc_user : ConfigParam String
  btc_rpc_password : ConfigParam String
  btc_rpc_connect : ConfigParam String
  btc_rpc_port : ConfigParam Nat
  debug : ConfigParam Bool
  deps_debug : ConfigParam Bool
  overwrite_key : ConfigParam Bool
  force_update : ConfigParam Bool
  subscription_slots : ConfigParam Nat
  subscription_duration : ConfigParam Nat
  expiry_delta : ConfigParam Nat
  min_to_self_delay : ConfigParam Nat
  polling_delta : ConfigParam Nat
  internal_api_bind : ConfigParam String
  internal_api_port : ConfigParam Nat
  tor_support : ConfigParam Bool
  tor_control_port : ConfigParam Nat
  onion_hidden_service_port : ConfigParam Nat
deriving DecidableEq, Repr

/-- Config::default (config.rs lines 383-418). -/
def Config.default : Config :=
  { api_bind := .from_default "127.0.0.1"
    api_port := .from_default 9814
    tor_support := .from_default false
    tor_control_port := .from_default 9051
    onion_hidden_service_port := .from_default 9814
    rpc_bind := .from_default "127.0.0.1"
    rpc_port := .from_default 8814
    btc_network := .from_default "mainnet"
    btc_rpc_user := .from_default ""
    btc_rpc_password := .from_default ""
    btc_rpc_connect := .from_default "localhost"
    btc_rpc_port := .from_default 0
    debug := .from_default false
    deps_debug := .from_default false
    overwrite_key := .from_default false
    force_update := .from_default false
    subscription_slots := .from_default 10000
    subscription_duration := .from_default 4320
    expiry_delta := .from_default 6
    min_to_self_delay := .from_default 20
    polling_delta := .from_default 60
    internal_api_bind := .from_default "127.0.0.1"
    internal_api_port := .from_default 50051 }

/-- Rust str::trim_end_matches "net" with a fuel argument for termination:
each round strips one trailing "net". -/
def trim_net_fuel : Nat → List Char → List Char
  | 0, l => l
  | n + 1, l =>
      if l.reverse.take 3 = ['t', 'e', 'n'] then trim_net_fuel n (l.take (l.length - 3))
      else l

/-- Rust str::trim_end_matches "net": repeatedly strips the suffix "net";
modelled on the character list of the string so that it evaluates by
reduction. -/
def trim_end_matches_net (s : String) : String :=
  String.mk (trim_net_fuel s.data.length s.data)

/-- The per-network default bitcoind RPC port (the match inside
Config::verify); none stands for the unrecognized-network error arm. -/
def network_default_rpc_port : String → Option Nat
  | "main" => some 8332
  | "test" => some 18332
  | "regtest" => some 18443
  | "signet" => some 38332
  | _ => none

/-- The network normalization step of Config::verify: a btc_network equal to
mainnet or testnet is rewritten by trimming the trailing net. -/
def normalize_btc_network (s : String) : String :=
  if ["mainnet", "testnet"].contains s then trim_end_matches_net s else s

/-- Config::verify (config.rs lines 325-354), with the &mut self / Result
pair embedded as Except over the updated configuration. -/
def Config.verify (c : Config) : Except String Config :=
  if c.btc_rpc_user.is_default then .error "btc_rpc_user must be set"
  else if c.btc_rpc_password.is_default then .error "btc_rpc_password must be set"
  else
    let c1 :=
      if ["mainnet", "testnet"].contains c.btc_network.inner then
        { c with
          btc_network := c.btc_network.set_inner (trim_end_matches_net c.btc_network.inner) }
      else c
    match network_default_rpc_port c1.btc_network.inner with
    | none => .error
        ("btc_network not recognized. Expected \x7bmainnet, testnet, signet, regtest\x7d, received "
          ++ c1.btc_network.inner)
    | some p => .ok
        (if c1.btc_rpc_port.is_default then
          { c1 with btc_rpc_port := c1.btc_rpc_port.set_inner p }
        else c1)

/-- A concrete appointment used to instantiate the theorems. -/
def sample_appointment : Appointment :=
  { locator := 7, encrypted_blob := [1, 2], to_self_delay := 42 }

/-- A concrete reachable tower summary with 50 slots and expiry 100. -/
def sample_tower : TowerSummary :=
  { net_addr := "talaia.watch"
    available_slots := 50
    subscription_expiry := 100
    status := .Reachable
    pending_appointments := []
    invalid_appointments := [] }

/-- A concrete client knowing exactly tower 1. -/
def sample_client : WTClient :=
  { towers := [(1, sample_tower)], db_log := [], sent := [] }

/-- A registration receipt that neither raises the expiry nor the slot count
of sample_tower: a replay/downgrade with respect to it. -/
def downgrade_receipt : RegistrationReceipt :=
  { user_id := 9, available_slots := 50, subscription_start := 0, subscription_expiry := 100 }

theorem alist_lookup_update_self {α : Type} (l : List (Nat × α)) (id : Nat) (f : α → α) :
    alist_lookup id (alist_update l id f) = (alist_lookup id l).map f := by
  induction l with
  | nil => rfl
  | cons p rest ih =>
      by_cases h : p.1 = id
      · simp [alist_update, alist_lookup, h]
      · simpa [alist_update, alist_lookup, h] using ih

theorem alist_update_update {α : Type} (l : List (Nat × α)) (id : Nat) (f g : α → α) :
    alist_update (alist_update l id f) id g = alist_update l id (fun a => g (f a)) := by
  induction l with
  | nil => rfl
  | cons p rest ih =>
      by_cases h : p.1 = id <;>
      · simp only [alist_update, List.map_cons, List.map_map] at ih ⊢
        rw [ih]
        by_cases h2 : p.1 = id <;> simp [h2]

theorem alist_lookup_filter_ne {α : Type} (l : List (Nat × α)) (id : Nat) :
    alist_lookup id (l.filter fun p => p.1 ≠ id) = none := by
  induction l with
  | nil => rfl
  | cons p rest ih =>
      by_cases h : p.1 = id
      · simpa [List.filter_cons, h] using ih
      · simpa [List.filter_cons, h, alist_lookup] using ih

theorem set_tower_status_known (c : WTClient) (id : Nat) (st : TowerStatus)
    (t : TowerSummary) (h : alist_lookup id c.towers = some t) :
    c.set_tower_status id st =
      { c with towers := alist_update c.towers id fun t0 => { t0 with status := st } } := by
  simp [WTClient.set_tower_status, h]

theorem add_pending_appointment_known (c : WTClient) (id : Nat) (a : Appointment)
    (t : TowerSummary) (h : alist_lookup id c.towers = some t) :
    c.add_pending_appointment id a =
      { c with
        towers := alist_update c.towers id fun t0 =>
          { t0 with pending_appointments := t0.pending_appointments.insert a.locator }
        db_log := c.db_log ++ [.store_pending_appointment id a.locator] } := by
  simp [WTClient.add_pending_appointment, h]

theorem process_tower_conn (c : WTClient) (id : Nat) (a : Appointment)
    (t : TowerSummary) (h : alist_lookup id c.towers = some t) :
    process_tower c id .Reachable a (.request_error .connection) =
      { c with
        towers := alist_update c.towers id fun t0 =>
          { t0 with
            status := .TemporaryUnreachable
            pending_appointments := t0.pending_appointments.insert a.locator }
        db_log := c.db_log ++ [.store_pending_appointment id a.locator]
        sent := c.sent ++ [id] } := by
  have h2 : alist_lookup id
      (alist_update c.towers id fun t0 => { t0 with status := TowerStatus.TemporaryUnreachable })
      = some { t with status := TowerStatus.TemporaryUnreachable } := by
    rw [alist_lookup_update_self, h]; rfl
  simp [process_tower, TowerStatus.is_reachable, RequestErr.is_connection,
    WTClient.set_tower_status, WTClient.add_pending_appointment, h, h2,
    alist_update_update]

theorem process_tower_subscription (c : WTClient) (id : Nat) (a : Appointment)
    (t : TowerSummary) (h : alist_lookup id c.towers = some t) :
    process_tower c id .Reachable a (.api_error INVALID_SIGNATURE_OR_SUBSCRIPTION_ERROR) =
      { c with
        towers := alist_update c.towers id fun t0 =>
          { t0 with
            status := .SubscriptionError
            pending_appointments := t0.pending_appointments.insert a.locator }
        db_log := c.db_log ++ [.store_pending_appointment id a.locator]
        sent := c.sent ++ [id] } := by
  have h2 : alist_lookup id
      (alist_update c.towers id fun t0 => { t0 with status := TowerStatus.SubscriptionError })
      = some { t with status := TowerStatus.SubscriptionError } := by
    rw [alist_lookup_update_self, h]; rfl
  simp [process_tower, TowerStatus.is_reachable,
    WTClient.set_tower_status, WTClient.add_pending_appointment, h, h2,
    alist_update_update]

theorem process_tower_other_api (c : WTClient) (id : Nat) (a : Appointment)
    (code : Nat) (hcode : code ≠ INVALID_SIGNATURE_OR_SUBSCRIPTION_ERROR)
    (t : TowerSummary) (h : alist_lookup id c.towers = some t) :
    process_tower c id .Reachable a (.api_error code) =
      { c with
        towers := alist_update c.towers id fun t0 =>
          { t0 with invalid_appointments := t0.invalid_appointments.insert a.locator }
        db_log := c.db_log ++ [.store_invalid_appointment id a.locator] } := by
  simp [process_tower, TowerStatus.is_reachable, hcode,
    WTClient.add_invalid_appointment, h]

theorem process_tower_ok (c : WTClient) (id : Nat) (a : Appointment) (slots : Nat)
    (t : TowerSummary) (h : alist_lookup id c.towers = some t) :
    process_tower c id .Reachable a (.ok slots) =
      { c with
        towers := alist_update c.towers id fun t0 => { t0 with available_slots := slots }
        db_log := c.db_log ++ [.store_appointment_receipt id a.locator slots] } := by
  simp [process_tower, TowerStatus.is_reachable, WTClient.add_appointment_receipt, h]

theorem process_tower_signature (c : WTClient) (id : Nat) (a : Appointment)
    (t : TowerSummary) (h : alist_lookup id c.towers = some t) :
    process_tower c id .Reachable a .signature_error =
      { c with
        towers := alist_update c.towers id fun t0 => { t0 with status := .Misbehaving }
        db_log := c.db_log ++ [.store_misbehaving_proof id] } := by
  simp [process_tower, TowerStatus.is_reachable, WTClient.flag_misbehaving_tower, h]

theorem process_tower_nonconn (c : WTClient) (id : Nat) (a : Appointment)
    (e : RequestErr) (he : e.is_connection = false) :
    process_tower c id .Reachable a (.request_error e) = c := by
  simp [process_tower, TowerStatus.is_reachable, he]

theorem process_tower_misbehaving (c : WTClient) (id : Nat) (a : Appointment)
    (o : AddAppointmentOutcome) :
    process_tower c id .Misbehaving a o = c := by
  simp [process_tower, TowerStatus.is_reachable, TowerStatus.is_misbehaving]

/-- Claim C1: the spec requires a registration receipt for an already known
tower to be accepted only when both its subscription_expiry and its
available_slots strictly exceed the stored values, and to be rejected without
any mutation otherwise. The add_update_tower in wt_client.rs performs no such
check and cannot fail: a receipt whose expiry and slots merely equal the
stored ones is accepted, the in-memory summary is replaced and a tower record
is persisted to the store. -/
theorem add_update_tower_accepts_downgrade :
    downgrade_receipt.subscription_expiry ≤ sample_tower.subscription_expiry ∧
    downgrade_receipt.available_slots ≤ sample_tower.available_slots ∧
    alist_lookup 1 sample_client.towers = some sample_tower ∧
    alist_lookup 1 ((sample_client.add_update_tower 1 "talaia.watch" downgrade_receipt).towers)
      = some (TowerSummary.new "talaia.watch" 50 100) ∧
    (sample_client.add_update_tower 1 "talaia.watch" downgrade_receipt).db_log
      = [.store_tower_record 1 "talaia.watch" 50 100] := by
  refine ⟨by decide, by decide, by decide, ?_, ?_⟩ <;> rfl

/-- A tower flagged for deferred abandonment, still present in the registry. -/
def abandoned_tower : TowerSummary :=
  { sample_tower with status := .Abandoned }

/-- A concrete client whose only tower is flagged Abandoned. -/
def abandoned_client : WTClient :=
  { towers := [(2, abandoned_tower)], db_log := [], sent := [] }

/-- Claim C3: the spec has dispatch skip Misbehaving and Abandoned towers
silently. The dispatch loop indeed performs no network call for an Abandoned
tower, but its skip branch only covers is_misbehaving, so an Abandoned tower
falls into the catch-all branch: the appointment is added to its pending set
and persisted, mutating the tower's records. -/
theorem abandoned_tower_receives_pending :
    makes_network_call .Abandoned = false ∧
    alist_lookup 2 abandoned_client.towers = some abandoned_tower ∧
    abandoned_tower.status = .Abandoned ∧
    (∀ o : AddAppointmentOutcome,
      process_tower abandoned_client 2 .Abandoned sample_appointment o =
        { abandoned_client with
          towers := [(2, { abandoned_tower with pending_appointments := [7] })]
          db_log := [.store_pending_appointment 2 7] }) ∧
    (process_tower abandoned_client 2 .Abandoned sample_appointment (.ok 0)).towers
      ≠ abandoned_client.towers := by
  refine ⟨rfl, by decide, rfl, fun o => rfl, by decide⟩

/-- A concrete client whose only tower is Misbehaving. -/
def misbehaving_client : WTClient :=
  { towers := [(3, { sample_tower with status := .Misbehaving })], db_log := [], sent := [] }

/-- Claim C4 counterexample: set_tower_status overwrites the status of any
known tower unconditionally, so a single call moves a Misbehaving tower back
to Reachable, contradicting the claim that no operation ever changes a
Misbehaving tower's status. -/
theorem set_tower_status_unflags_misbehaving :
    alist_lookup 3 misbehaving_client.towers
      = some { sample_tower with status := .Misbehaving } ∧
    alist_lookup 3 ((misbehaving_client.set_tower_status 3 .Reachable).towers)
      = some { sample_tower with status := .Reachable } := by
  exact ⟨by decide, by decide⟩

/-- Claim C4 (amended): the dispatch pipeline never mutates a tower whose
snapshot status is Misbehaving, but set_tower_status itself overwrites the
status of any known tower unconditionally, so Misbehaving is sticky only as
long as no caller asks for a different status. -/
theorem misbehaving_sticky_only_in_dispatch :
    (∀ (c : WTClient) (id : Nat) (a : Appointment) (o : AddAppointmentOutcome),
        process_tower c id .Misbehaving a o = c) ∧
    (∀ (c : WTClient) (id : Nat) (st : TowerStatus) (t : TowerSummary),
        alist_lookup id c.towers = some t →
        alist_lookup id ((c.set_tower_status id st).towers) = some { t with status := st }) := by
  constructor
  · exact fun c id a o => process_tower_misbehaving c id a o
  · intro c id st t h
    have h2 : alist_lookup id (alist_update c.towers id fun t0 => { t0 with status := st })
        = some { t with status := st } := by
      rw [alist_lookup_update_self, h]; rfl
    rw [set_tower_status_known c id st t h]
    exact h2

/-- Witness for misbehaving_sticky_only_in_dispatch at a concrete client. -/
theorem misbehaving_sticky_only_in_dispatch_witness :
    alist_lookup 1 sample_client.towers = some sample_tower ∧
    alist_lookup 1 ((sample_client.set_tower_status 1 .Unreachable).towers)
      = some { sample_tower with status := .Unreachable } :=
  ⟨by decide,
    misbehaving_sticky_only_in_dispatch.2 sample_client 1 .Unreachable sample_tower (by decide)⟩

/-- Claim C5: for every successfully decoded commitment_revocation payload the
hook returns Ok after the dispatch loop over the snapshot, regardless of the
per-tower outcomes; but the reply the code builds is a JSON string literal
(with a leading space and an unquoted continue inside), not the JSON object
with field result set to continue that the spec requires. -/
theorem hook_reply_not_continue_object (c : WTClient) (a : Appointment)
    (outcome : Nat → AddAppointmentOutcome) :
    on_commitment_revocation c a outcome
      = .ok (dispatch_towers c (tower_snapshot c) a outcome, hook_reply) ∧
    hook_reply = .str " \x7b\"result\": continue\x7d" ∧
    ∀ fields, hook_reply ≠ Json.obj fields := by
  refine ⟨rfl, rfl, fun fields h => Json.noConfusion h⟩

theorem lookup_update_of_known {α : Type} (l : List (Nat × α)) (id : Nat) (f : α → α)
    (a : α) (h : alist_lookup id l = some a) :
    alist_lookup id (alist_update l id f) = some (f a) := by
  rw [alist_lookup_update_self, h]; rfl

/-- Claim C2: for a tower whose snapshot status is Reachable, the dispatch
loop routes the add_appointment outcome exactly as specified: success stores
the receipt and updates the slots; ConnectionError sets TemporaryUnreachable,
persists the appointment as pending and signals the retrier channel; an
ApiError with the subscription code sets SubscriptionError, persists pending
and signals the retrier; any other ApiError persists the appointment as
invalid and leaves status and channel untouched; and the two final
equivalences show no other outcome produces TemporaryUnreachable and no other
ApiError produces SubscriptionError. -/
theorem outcome_routing (c : WTClient) (tower_id : Nat) (a : Appointment)
    (t : TowerSummary) (h : alist_lookup tower_id c.towers = some t)
    (hst : t.status = .Reachable) :
    (∀ slots,
      alist_lookup tower_id (process_tower c tower_id .Reachable a (.ok slots)).towers
          = some { t with available_slots := slots } ∧
      (process_tower c tower_id .Reachable a (.ok slots)).db_log
          = c.db_log ++ [.store_appointment_receipt tower_id a.locator slots] ∧
      (process_tower c tower_id .Reachable a (.ok slots)).sent = c.sent) ∧
    (alist_lookup tower_id
        (process_tower c tower_id .Reachable a (.request_error .connection)).towers
        = some { t with
            status := .TemporaryUnreachable
            pending_appointments := t.pending_appointments.insert a.locator } ∧
      (process_tower c tower_id .Reachable a (.request_error .connection)).db_log
        = c.db_log ++ [.store_pending_appointment tower_id a.locator] ∧
      (process_tower c tower_id .Reachable a (.request_error .connection)).sent
        = c.sent ++ [tower_id]) ∧
    (alist_lookup tower_id
        (process_tower c tower_id .Reachable a
          (.api_error INVALID_SIGNATURE_OR_SUBSCRIPTION_ERROR)).towers
        = some { t with
            status := .SubscriptionError
            pending_appointments := t.pending_appointments.insert a.locator } ∧
      (process_tower c tower_id .Reachable a
          (.api_error INVALID_SIGNATURE_OR_SUBSCRIPTION_ERROR)).db_log
        = c.db_log ++ [.store_pending_appointment tower_id a.locator] ∧
      (process_tower c tower_id .Reachable a
          (.api_error INVALID_SIGNATURE_OR_SUBSCRIPTION_ERROR)).sent
        = c.sent ++ [tower_id]) ∧
    (∀ code, code ≠ INVALID_SIGNATURE_OR_SUBSCRIPTION_ERROR →
      alist_lookup tower_id (process_tower c tower_id .Reachable a (.api_error code)).towers
          = some { t with
              invalid_appointments := t.invalid_appointments.insert a.locator } ∧
      (process_tower c tower_id .Reachable a (.api_error code)).db_log
          = c.db_log ++ [.store_invalid_appointment tower_id a.locator] ∧
      (process_tower c tower_id .Reachable a (.api_error code)).sent = c.sent) ∧
    (∀ o, (alist_lookup tower_id (process_tower c tower_id .Reachable a o).towers).map
        TowerSummary.status = some .TemporaryUnreachable
        ↔ o = .request_error .connection) ∧
    (∀ o, (alist_lookup tower_id (process_tower c tower_id .Reachable a o).towers).map
        TowerSummary.status = some .SubscriptionError
        ↔ o = .api_error INVALID_SIGNATURE_OR_SUBSCRIPTION_ERROR) := by
  have hl : ∀ f : TowerSummary → TowerSummary,
      alist_lookup tower_id (alist_update c.towers tower_id f) = some (f t) :=
    fun f => lookup_update_of_known c.towers tower_id f t h
  refine ⟨?_, ?_, ?_, ?_, ?_, ?_⟩
  · intro slots
    rw [process_tower_ok c tower_id a slots t h]
    exact ⟨hl fun t0 => { t0 with available_slots := slots }, rfl, rfl⟩
  · rw [process_tower_conn c tower_id a t h]
    exact ⟨hl fun t0 => { t0 with
      status := .TemporaryUnreachable
      pending_appointments := t0.pending_appointments.insert a.locator }, rfl, rfl⟩
  · rw [process_tower_subscription c tower_id a t h]
    exact ⟨hl fun t0 => { t0 with
      status := .SubscriptionError
      pending_appointments := t0.pending_appointments.insert a.locator }, rfl, rfl⟩
  · intro code hcode
    rw [process_tower_other_api c tower_id a code hcode t h]
    exact ⟨hl fun t0 => { t0 with
      invalid_appointments := t0.invalid_appointments.insert a.locator }, rfl, rfl⟩
  · intro o
    cases o with
    | ok slots =>
        rw [process_tower_ok c tower_id a slots t h]
        simp [hl, hst]
    | request_error e =>
        cases e with
        | connection =>
            rw [process_tower_conn c tower_id a t h]
            simp [hl]
        | deserialize =>
            rw [process_tower_nonconn c tower_id a .deserialize rfl]
            simp [h, hst]
        | unexpected =>
            rw [process_tower_nonconn c tower_id a .unexpected rfl]
            simp [h, hst]
    | api_error code =>
        by_cases hc : code = INVALID_SIGNATURE_OR_SUBSCRIPTION_ERROR
        · subst hc
          rw [process_tower_subscription c tower_id a t h]
          simp [hl]
        · rw [process_tower_other_api c tower_id a code hc t h]
          simp [hl, hst]
    | signature_error =>
        rw [process_tower_signature c tower_id a t h]
        simp [hl]
  · intro o
    cases o with
    | ok slots =>
        rw [process_tower_ok c tower_id a slots t h]
        simp [hl, hst]
    | request_error e =>
        cases e with
        | connection =>
            rw [process_tower_conn c tower_id a t h]
            simp [hl]
        | deserialize =>
            rw [process_tower_nonconn c tower_id a .deserialize rfl]
            simp [h, hst]
        | unexpected =>
            rw [process_tower_nonconn c tower_id a .unexpected rfl]
            simp [h, hst]
    | api_error code =>
        by_cases hc : code = INVALID_SIGNATURE_OR_SUBSCRIPTION_ERROR
        · subst hc
          rw [process_tower_subscription c tower_id a t h]
          simp [hl]
        · rw [process_tower_other_api c tower_id a code hc t h]
          simp [hl, hst, hc]
    | signature_error =>
        rw [process_tower_signature c tower_id a t h]
        simp [hl]

/-- Witness for outcome_routing: the connection-error branch on the concrete
client flips tower 1 to TemporaryUnreachable, queues the appointment and
signals the retrier. -/
theorem outcome_routing_witness :
    alist_lookup 1 sample_client.towers = some sample_tower ∧
    sample_tower.status = .Reachable ∧
    alist_lookup 1
        (process_tower sample_client 1 .Reachable sample_appointment
          (.request_error .connection)).towers
      = some { sample_tower with
          status := .TemporaryUnreachable, pending_appointments := [7] } ∧
    (process_tower sample_client 1 .Reachable sample_appointment
        (.request_error .connection)).sent = [1] := by
  have hr := outcome_routing sample_client 1 sample_appointment sample_tower
    (by decide) (by decide)
  refine ⟨by decide, by decide, ?_, ?_⟩
  · exact hr.2.1.1
  · exact hr.2.1.2.2

/-- Claim C6: abandon_tower on a known TemporaryUnreachable tower removes no
record: it only flips the in-memory status to the deferred-abandon flag and
returns the error-worded flagged result; on a known tower of any other status
it removes the tower and all its records; on an unknown tower it errors
without mutating anything. -/
theorem abandon_tower_cases (c : WTClient) (tower_id : Nat) :
    (∀ t, alist_lookup tower_id c.towers = some t → t.status = .TemporaryUnreachable →
      abandon_tower c tower_id
          = ({ c with towers := alist_update c.towers tower_id fun t0 =>
                { t0 with status := .Abandoned } }, .flagged) ∧
      alist_lookup tower_id (abandon_tower c tower_id).1.towers
          = some { t with status := .Abandoned } ∧
      (abandon_tower c tower_id).1.db_log = c.db_log ∧
      (abandon_tower c tower_id).1.sent = c.sent ∧
      AbandonResult.is_err .flagged = true) ∧
    (∀ t, alist_lookup tower_id c.towers = some t → t.status ≠ .TemporaryUnreachable →
      abandon_tower c tower_id = (c.remove_tower tower_id, .removed) ∧
      alist_lookup tower_id (abandon_tower c tower_id).1.towers = none ∧
      (abandon_tower c tower_id).1.db_log = c.db_log ++ [.remove_tower_records tower_id] ∧
      AbandonResult.is_err .removed = false) ∧
    (alist_lookup tower_id c.towers = none →
      abandon_tower c tower_id = (c, .unknown) ∧
      AbandonResult.is_err .unknown = true) := by
  refine ⟨?_, ?_, ?_⟩
  · intro t h htu
    have he : abandon_tower c tower_id
        = ({ c with towers := alist_update c.towers tower_id fun t0 =>
              { t0 with status := .Abandoned } }, .flagged) := by
      simp [abandon_tower, h, htu]
    refine ⟨he, ?_, ?_, ?_, rfl⟩
    · rw [he]
      exact lookup_update_of_known c.towers tower_id
        (fun t0 => { t0 with status := .Abandoned }) t h
    · rw [he]
    · rw [he]
  · intro t h htu
    have he : abandon_tower c tower_id = (c.remove_tower tower_id, .removed) := by
      simp [abandon_tower, h, htu]
    refine ⟨he, ?_, ?_, rfl⟩
    · rw [he]
      exact alist_lookup_filter_ne c.towers tower_id
    · rw [he]
      rfl
  · intro h
    exact ⟨by simp [abandon_tower, h], rfl⟩

/-- A concrete client whose only tower is TemporaryUnreachable with one
pending appointment. -/
def tu_client : WTClient :=
  { towers := [(4, { sample_tower with
      status := .TemporaryUnreachable, pending_appointments := [7] })]
    db_log := []
    sent := [] }

/-- Witness for abandon_tower_cases: flagging the TemporaryUnreachable tower
keeps its records (pending set intact) and persists nothing. -/
theorem abandon_tower_cases_witness :
    alist_lookup 4 tu_client.towers
      = some { sample_tower with
          status := .TemporaryUnreachable, pending_appointments := [7] } ∧
    alist_lookup 4 (abandon_tower tu_client 4).1.towers
      = some { sample_tower with status := .Abandoned, pending_appointments := [7] } ∧
    (abandon_tower tu_client 4).1.db_log = tu_client.db_log :=
  ⟨by decide,
    ((abandon_tower_cases tu_client 4).1
      { sample_tower with status := .TemporaryUnreachable, pending_appointments := [7] }
      (by decide) (by decide)).2.1,
    ((abandon_tower_cases tu_client 4).1
      { sample_tower with status := .TemporaryUnreachable, pending_appointments := [7] }
      (by decide) (by decide)).2.2.1⟩

/-- Claim C7: retry_tower errors without touching the channel unless the
tower is known and currently Unreachable; the already-being-retried case
gets its own distinct error; the Unreachable case sends the tower id on the
unreachable_towers channel and succeeds. -/
theorem retry_tower_cases (c : WTClient) (tower_id : Nat) :
    (∀ t, alist_lookup tower_id c.towers = some t → t.status = .TemporaryUnreachable →
      retry_tower c tower_id = (c, .already_being_retried)) ∧
    (∀ t, alist_lookup tower_id c.towers = some t → t.status ≠ .TemporaryUnreachable →
      t.status ≠ .Unreachable → retry_tower c tower_id = (c, .must_be_unreachable)) ∧
    (∀ t, alist_lookup tower_id c.towers = some t → t.status = .Unreachable →
      retry_tower c tower_id = ({ c with sent := c.sent ++ [tower_id] }, .retrying)) ∧
    (alist_lookup tower_id c.towers = none →
      retry_tower c tower_id = (c, .unknown_tower)) ∧
    (RetryResult.is_ok .retrying = true ∧
      RetryResult.is_ok .already_being_retried = false ∧
      RetryResult.is_ok .must_be_unreachable = false ∧
      RetryResult.is_ok .unknown_tower = false ∧
      RetryResult.already_being_retried ≠ .must_be_unreachable ∧
      RetryResult.already_being_retried ≠ .unknown_tower) := by
  refine ⟨?_, ?_, ?_, ?_, by decide⟩
  · intro t h htu
    simp [retry_tower, h, htu]
  · intro t h htu hun
    simp [retry_tower, h, htu, hun]
  · intro t h hun
    have htu : t.status ≠ .TemporaryUnreachable := by rw [hun]; decide
    simp [retry_tower, h, htu, hun]
  · intro h
    simp [retry_tower, h]

/-- A concrete client whose only tower is Unreachable. -/
def unreachable_client : WTClient :=
  { towers := [(5, { sample_tower with status := .Unreachable })]
    db_log := []
    sent := [] }

/-- Witness for retry_tower_cases: retrying the Unreachable tower sends its
id on the channel and succeeds. -/
theorem retry_tower_cases_witness :
    retry_tower unreachable_client 5
      = ({ unreachable_client with sent := [5] }, .retrying) :=
  (retry_tower_cases unreachable_client 5).2.2.1
    { sample_tower with status := .Unreachable } (by decide) (by decide)

theorem alist_lookup_map_snd {α β : Type} (g : α → β) (store : List (Nat × α)) (id : Nat) :
    alist_lookup id (store.map fun p => (p.1, g p.2)) = (alist_lookup id store).map g := by
  induction store with
  | nil => rfl
  | cons p rest ih =>
      by_cases h : p.1 = id
      · simp [alist_lookup, h]
      · simpa [alist_lookup, h] using ih

theorem load_towers_keys (store : List (Nat × StoredTower)) :
    (load_towers store).map (fun p => p.1) = store.map fun p => p.1 := by
  induction store with
  | nil => rfl
  | cons p rest ih =>
      simp only [load_towers, List.map_cons] at ih ⊢
      rw [ih]

theorem new_sent_subset (store : List (Nat × StoredTower)) (x : Nat)
    (hx : x ∈ (wt_client_new store).sent) : x ∈ store.map fun p => p.1 := by
  have h1 : (wt_client_new store).sent
      = ((load_towers store).filter fun p => p.2.status.is_unreachable).map fun p => p.1 := rfl
  rw [h1] at hx
  have h2 : x ∈ (load_towers store).map fun p => p.1 :=
    List.map_subset _ (List.filter_sublist _).subset hx
  rwa [load_towers_keys] at h2

theorem mem_new_sent_iff (store : List (Nat × StoredTower)) (id : Nat) (st : StoredTower)
    (hnd : (store.map fun p => p.1).Nodup) (h : alist_lookup id store = some st) :
    id ∈ (wt_client_new store).sent ↔ (load_summary st).status.is_unreachable = true := by
  induction store with
  | nil => cases h
  | cons p rest ih =>
      rw [List.map_cons, List.nodup_cons] at hnd
      have hsent : (wt_client_new (p :: rest)).sent
          = (((p.1, load_summary p.2) :: load_towers rest).filter
              fun q => q.2.status.is_unreachable).map fun q => q.1 := rfl
      by_cases hp : p.1 = id
      · have hst : st = p.2 := by
          simp [alist_lookup, hp] at h
          exact h.symm
        subst hst
        by_cases hu : (load_summary p.2).status.is_unreachable = true
        · constructor
          · intro _; exact hu
          · intro _
            rw [hsent]
            simp [List.filter_cons, hu, hp]
        · have hnotmem : id ∉ (wt_client_new (p :: rest)).sent := by
            rw [hsent]
            simp only [List.filter_cons, hu, if_false, Bool.false_eq_true, ite_false]
            intro hmem
            have hkeys : id ∈ rest.map fun q => q.1 := new_sent_subset rest id hmem
            rw [hp] at hnd
            exact hnd.1 hkeys
          exact ⟨fun hmem => absurd hmem hnotmem, fun hu2 => absurd hu2 hu⟩
      · have h' : alist_lookup id rest = some st := by simpa [alist_lookup, hp] using h
        have hiff := ih hnd.2 h'
        rw [hsent]
        by_cases hu : (load_summary p.2).status.is_unreachable = true
        · have hrw : (((p.1, load_summary p.2) :: load_towers rest).filter
                fun q => q.2.status.is_unreachable).map (fun q => q.1)
              = p.1 :: (wt_client_new rest).sent := by
            simp only [List.filter_cons, hu, if_true, List.map_cons]
            rfl
          rw [hrw, List.mem_cons]
          constructor
          · rintro (h1 | h2)
            · exact absurd h1.symm hp
            · exact hiff.mp h2
          · intro hu2
            exact Or.inr (hiff.mpr hu2)
        · have hrw : (((p.1, load_summary p.2) :: load_towers rest).filter
                fun q => q.2.status.is_unreachable).map (fun q => q.1)
              = (wt_client_new rest).sent := by
            simp only [List.filter_cons, hu, if_false, Bool.false_eq_true, ite_false]
            rfl
          rw [hrw]
          exact hiff

/-- Claim C8: startup reconstructs the registry from the store so that every
tower with non-empty pending appointments is loaded TemporaryUnreachable and
its id is sent on the unreachable_towers channel, and every other tower is
loaded Reachable and not enqueued. -/
theorem startup_restart_equivalence (store : List (Nat × StoredTower)) (tower_id : Nat)
    (st : StoredTower) (hnd : (store.map fun p => p.1).Nodup)
    (h : alist_lookup tower_id store = some st) :
    alist_lookup tower_id (wt_client_new store).towers = some (load_summary st) ∧
    (st.pending ≠ [] →
      (load_summary st).status = .TemporaryUnreachable ∧
      tower_id ∈ (wt_client_new store).sent) ∧
    (st.pending = [] →
      (load_summary st).status = .Reachable ∧
      tower_id ∉ (wt_client_new store).sent) := by
  have hlook : alist_lookup tower_id (wt_client_new store).towers = some (load_summary st) := by
    have htw : (wt_client_new store).towers = load_towers store := rfl
    rw [htw]
    unfold load_towers
    rw [alist_lookup_map_snd, h]
    rfl
  refine ⟨hlook, ?_, ?_⟩
  · intro hne
    have hstatus : (load_summary st).status = .TemporaryUnreachable := by
      simp [load_summary, hne]
    refine ⟨hstatus, ?_⟩
    rw [mem_new_sent_iff store tower_id st hnd h, hstatus]
    rfl
  · intro he
    have hstatus : (load_summary st).status = .Reachable := by
      simp [load_summary, he]
    refine ⟨hstatus, ?_⟩
    rw [mem_new_sent_iff store tower_id st hnd h, hstatus]
    decide

/-- A stored tower with one pending appointment. -/
def stored_pending : StoredTower :=
  { net_addr := "talaia.watch", available_slots := 10, subscription_expiry := 200,
    pending := [9], invalid := [] }

/-- A stored tower with no pending appointments. -/
def stored_empty : StoredTower :=
  { net_addr := "talaia.watch", available_slots := 20, subscription_expiry := 300,
    pending := [], invalid := [] }

/-- A concrete persisted store with one tower of each kind. -/
def sample_store : List (Nat × StoredTower) :=
  [(6, stored_pending), (7, stored_empty)]

/-- Witness for startup_restart_equivalence: on the concrete store, tower 6
(pending non-empty) is enqueued and tower 7 (no pending) is not. -/
theorem startup_restart_equivalence_witness :
    6 ∈ (wt_client_new sample_store).sent ∧ 7 ∉ (wt_client_new sample_store).sent :=
  ⟨((startup_restart_equivalence sample_store 6 stored_pending (by decide)
      (by decide)).2.1 (by decide)).2,
    ((startup_restart_equivalence sample_store 7 stored_empty (by decide)
      (by decide)).2.2 (by decide)).2⟩

/-- Claim C9: every WTClient mutator that takes a tower id is a no-op on an
unknown tower: the registry, the store log and the channel are all unchanged,
and no error is surfaced (the embedded functions are total and return the
state unchanged, as the originals return unit after only logging). -/
theorem unknown_tower_mutators_noop (c : WTClient) (tower_id : Nat)
    (h : alist_lookup tower_id c.towers = none) :
    (∀ st, c.set_tower_status tower_id st = c) ∧
    (∀ locator slots, c.add_appointment_receipt tower_id locator slots = c) ∧
    (∀ a : Appointment, c.add_pending_appointment tower_id a = c) ∧
    (∀ locator, c.remove_pending_appointment tower_id locator = c) ∧
    (∀ a : Appointment, c.add_invalid_appointment tower_id a = c) ∧
    c.flag_misbehaving_tower tower_id = c := by
  refine ⟨fun st => ?_, fun l s => ?_, fun a => ?_, fun l => ?_, fun a => ?_, ?_⟩ <;>
    simp [WTClient.set_tower_status, WTClient.add_appointment_receipt,
      WTClient.add_pending_appointment, WTClient.remove_pending_appointment,
      WTClient.add_invalid_appointment, WTClient.flag_misbehaving_tower, h]

/-- Witness for unknown_tower_mutators_noop on the concrete client and the
unknown tower id 99. -/
theorem unknown_tower_mutators_noop_witness :
    alist_lookup 99 sample_client.towers = none ∧
    sample_client.set_tower_status 99 .Misbehaving = sample_client ∧
    sample_client.add_pending_appointment 99 sample_appointment = sample_client :=
  ⟨by decide,
    (unknown_tower_mutators_noop sample_client 99 (by decide)).1 .Misbehaving,
    (unknown_tower_mutators_noop sample_client 99 (by decide)).2.2.1 sample_appointment⟩

/-- Claim C10: Config::verify checks btc_rpc_user first, then
btc_rpc_password, then that btc_network normalizes (mainnet to main, testnet
to test) to a recognized network; on success the port defaults by network
(main 8332, test 18332, regtest 18443, signet 38332) when still at its
default, btc_network holds its normalized value, and every other field is
unchanged (the single record update in the Ok equation fixes all of them). -/
theorem config_verify_characterization (c : Config) :
    (c.btc_rpc_user.is_default = true → c.verify = .error "btc_rpc_user must be set") ∧
    (c.btc_rpc_user.is_default = false → c.btc_rpc_password.is_default = true →
      c.verify = .error "btc_rpc_password must be set") ∧
    (c.btc_rpc_user.is_default = false → c.btc_rpc_password.is_default = false →
      (network_default_rpc_port (normalize_btc_network c.btc_network.inner) = none →
        c.verify = .error
          ("btc_network not recognized. Expected \x7bmainnet, testnet, signet, regtest\x7d, received "
            ++ normalize_btc_network c.btc_network.inner)) ∧
      (∀ p, network_default_rpc_port (normalize_btc_network c.btc_network.inner) = some p →
        c.verify = .ok
          { c with
            btc_network := c.btc_network.set_inner (normalize_btc_network c.btc_network.inner)
            btc_rpc_port :=
              if c.btc_rpc_port.is_default then c.btc_rpc_port.set_inner p
              else c.btc_rpc_port })) ∧
    (network_default_rpc_port "main" = some 8332 ∧
      network_default_rpc_port "test" = some 18332 ∧
      network_default_rpc_port "regtest" = some 18443 ∧
      network_default_rpc_port "signet" = some 38332 ∧
      normalize_btc_network "mainnet" = "main" ∧
      normalize_btc_network "testnet" = "test") := by
  refine ⟨?_, ?_, ?_, by decide⟩
  · intro h1
    simp [Config.verify, h1]
  · intro h1 h2
    simp [Config.verify, h1, h2]
  · intro h1 h2
    by_cases hm : c.btc_network.inner = "mainnet" ∨ c.btc_network.inner = "testnet"
    · have hnorm : normalize_btc_network c.btc_network.inner
          = trim_end_matches_net c.btc_network.inner := by
        simp [normalize_btc_network, hm]
      constructor
      · intro hnone
        rw [hnorm] at hnone
        simp [Config.verify, h1, h2, hm, hnone, ConfigParam.set_inner, hnorm]
      · intro p hp
        rw [hnorm] at hp
        by_cases hd : c.btc_rpc_port.is_default = true <;>
          simp [Config.verify, h1, h2, hm, hp, hd, hnorm, ConfigParam.set_inner]
    · have hnorm : normalize_btc_network c.btc_network.inner = c.btc_network.inner := by
        simp [normalize_btc_network, hm]
      constructor
      · intro hnone
        rw [hnorm] at hnone
        simp [Config.verify, h1, h2, hm, hnone, hnorm]
      · intro p hp
        rw [hnorm] at hp
        by_cases hd : c.btc_rpc_port.is_default = true <;>
          simp [Config.verify, h1, h2, hm, hp, hd, hnorm, ConfigParam.set_inner]

/-- A configuration with credentials supplied on the command line and every
other option left at its default. -/
def sample_config : Config :=
  { Config.default with
    btc_rpc_user := .from_cmd "user"
    btc_rpc_password := .from_cmd "passwd" }

/-- Witness for config_verify_characterization: the concrete configuration
verifies, mainnet is normalized and the network default port 8332 is set. -/
theorem config_verify_characterization_witness :
    sample_config.verify = .ok
      { sample_config with
        btc_network := sample_config.btc_network.set_inner
          (normalize_btc_network sample_config.btc_network.inner)
        btc_rpc_port :=
          if sample_config.btc_rpc_port.is_default then
            sample_config.btc_rpc_port.set_inner 8332
          else sample_config.btc_rpc_port } :=
  ((config_verify_characterization sample_config).2.2.1 (by decide) (by decide)).2
    8332 (by decide)

end RustTeos
